import Mathlib

/-!
Shallow embedding of the live video analysis loop of
src/lambda/video_stream.py (class RekognitionVideoAnalyzer), together with
theorems settling the specification claims about it.

Conventions of the embedding:
* Wall-clock times and all fractional quantities are rationals.
* The remote Rekognition service is an oracle parameter: a function from the
  request the source builds to either a parsed response list or a
  botocore ClientError; the source catches exactly ClientError.
* A raised Python exception that the source does not catch is represented
  explicitly in the step outcome (StepKind.raised).
* OpenCV drawing calls (cv2.rectangle, cv2.putText) are modelled as marks
  appended to the frame.
-/

namespace VideoStream

/-- Byte buffer produced by JPEG encoding: a plain list of byte values. -/
abbrev ImageBytes := List Nat

/-- Model of botocore.exceptions.ClientError, the exception class the source
catches around its Rekognition calls. -/
inductive ClientError where
  | clientError (message : String)
  deriving DecidableEq

/-- Keyboard input for one tick, the value of cv2.waitKey(1) AND 0xFF:
the spacebar, the letter q, or anything else (including no key). -/
inductive Key where
  | space
  | q
  | other
  deriving DecidableEq

/-- Normalized bounding box as returned by Rekognition: fractions of the
image dimensions. -/
structure BoundingBox where
  left : ℚ
  top : ℚ
  width : ℚ
  height : ℚ
  deriving DecidableEq

/-- Age range attribute of a detected face. -/
structure AgeRange where
  low : ℕ
  high : ℕ
  deriving DecidableEq

/-- One entry of the FaceDetails list of a detect_faces response.  The source
reads Confidence with a dictionary default (face.get with default 0) and
AgeRange optionally, so both are Options here. -/
structure FaceDetail where
  boundingBox : BoundingBox
  confidence : Option ℚ
  ageRange : Option AgeRange
  deriving DecidableEq

/-- One entry of the Labels list of a detect_labels response. -/
structure LabelDetail where
  labelName : String
  confidence : ℚ
  deriving DecidableEq

/-- Content of a cv2.putText call; the rendered string is a function of this
data (confidence formatted to one decimal, age range, the fixed caption, the
running frame counter). -/
inductive TextContent where
  | faceConfidence (confidence : ℚ)
  | ageText (low high : ℕ)
  | caption
  | frameCounter (count : ℕ)
  deriving DecidableEq

/-- A drawing primitive burned onto a frame: cv2.rectangle with two corners,
a BGR color and a thickness, or cv2.putText with content, position, font
scale, BGR color and thickness. -/
inductive Mark where
  | rect (x1 y1 x2 y2 : ℤ) (b g r : ℕ) (thickness : ℕ)
  | text (content : TextContent) (x y : ℤ) (scale : ℚ) (b g r : ℕ) (thickness : ℕ)
  deriving DecidableEq

/-- A captured frame: its pixel dimensions, the overlay marks drawn on it so
far, and what cv2.imencode produces for it — none models the case where JPEG
encoding fails, which the source (encode_image, lines 22-28) never checks,
so a failure there surfaces as a raised exception. -/
structure Frame where
  width : ℕ
  height : ℕ
  marks : List Mark
  jpegBytes : Option ImageBytes
  deriving DecidableEq

/-- Python int() applied to a float: truncation toward zero. -/
def pyInt (q : ℚ) : ℤ := if 0 ≤ q then ⌊q⌋ else ⌈q⌉

/-- Python integer modulo: floor-style remainder (Int.fmod), raising
ZeroDivisionError when the divisor is zero — modelled as none. -/
def pymod (a n : ℤ) : Option ℤ :=
  if n = 0 then Option.none else Option.some (Int.fmod a n)

/-- encode_image (lines 22-28): encode the frame as JPEG and return the byte
buffer.  The source ignores the success flag of cv2.imencode, so a failed
encode is a raised exception at the call site; the Option carries that. -/
def encode_image (frame : Frame) : Option ImageBytes := frame.jpegBytes

/-- The request detect_faces sends: the image bytes plus the attribute list
the source fixes to ALL. -/
structure DetectFacesRequest where
  image : ImageBytes
  attributes : List String
  deriving DecidableEq

/-- The request detect_labels sends: the image bytes plus the caps the source
fixes (MaxLabels, MinConfidence). -/
structure DetectLabelsRequest where
  image : ImageBytes
  maxLabels : ℕ
  minConfidence : ℚ
  deriving DecidableEq

/-- The remote face detection endpoint as an oracle. -/
abbrev FacesOracle := DetectFacesRequest → Except ClientError (List FaceDetail)

/-- The remote label detection endpoint as an oracle. -/
abbrev LabelsOracle := DetectLabelsRequest → Except ClientError (List LabelDetail)

/-- detect_faces (lines 30-42): call the service with Attributes = [ALL];
on ClientError print and return the empty list. -/
def detect_faces (rekognition : FacesOracle) (image_bytes : ImageBytes) :
    List FaceDetail :=
  match rekognition { image := image_bytes, attributes := ["ALL"] } with
  | Except.ok faceDetails => faceDetails
  | Except.error _ => []

/-- detect_labels (lines 44-57): call the service with MaxLabels = 10 and
MinConfidence = 70; on ClientError print and return the empty list. -/
def detect_labels (rekognition : LabelsOracle) (image_bytes : ImageBytes) :
    List LabelDetail :=
  match rekognition { image := image_bytes, maxLabels := 10, minConfidence := 70 } with
  | Except.ok labels => labels
  | Except.error _ => []

/-- Denormalization of a bounding box (lines 69-72): x = int(left*width),
y = int(top*height), w = int(width*frame_width), h = int(height*frame_height). -/
def denormalize (box : BoundingBox) (width height : ℕ) : ℤ × ℤ × ℤ × ℤ :=
  (pyInt (box.left * width), pyInt (box.top * height),
   pyInt (box.width * width), pyInt (box.height * height))

/-- Body of the for loop of draw_face_boxes (lines 65-87): rectangle at the
denormalized box, confidence text above it, and, when present, the age range
text beneath it. -/
def drawOneFace (width height : ℕ) (marks : List Mark) (face : FaceDetail) :
    List Mark :=
  match denormalize face.boundingBox width height with
  | (x, y, w, h) =>
    let base := marks ++
      [Mark.rect x y (x + w) (y + h) 0 255 0 2,
       Mark.text (TextContent.faceConfidence (face.confidence.getD 0))
         x (y - 10) (1/2) 0 255 0 1]
    match face.ageRange with
    | Option.some ar =>
        base ++ [Mark.text (TextContent.ageText ar.low ar.high)
          x (y + h + 20) (2/5) 0 255 0 1]
    | Option.none => base

/-- draw_face_boxes (lines 59-89): draw every face onto the frame and return
the frame. -/
def draw_face_boxes (frame : Frame) (faces : List FaceDetail) : Frame :=
  { frame with marks := faces.foldl (drawOneFace frame.width frame.height) frame.marks }

/-- The two instructional putText calls of lines 188-191, applied to every
displayed frame: the fixed caption and the running frame counter. -/
def addCaptions (frame_count : ℕ) (frame : Frame) : Frame :=
  { frame with marks := frame.marks ++
      [Mark.text TextContent.caption 10 30 (7/10) 255 255 255 2,
       Mark.text (TextContent.frameCounter frame_count) 10 60 (1/2) 255 255 255 1] }

/-- Mutable loop state of run_video_analysis: frame_count and
last_analysis_time (lines 145-146). -/
structure LoopState where
  frame_count : ℕ
  last_analysis_time : ℚ
  deriving DecidableEq

/-- Uncaught Python exceptions the loop body can raise. -/
inductive PyError where
  | zeroDivision
  | encodingError
  deriving DecidableEq

/-- How a single iteration of the while loop ends. -/
inductive StepKind where
  | continued
  | brokeReadFailure
  | brokeQuit
  | raised (e : PyError)
  deriving DecidableEq

/-- Outcome of the decision chain of lines 159-167. -/
inductive Decision where
  | analyze
  | passThrough
  | quit
  | divError
  deriving DecidableEq

/-- External inputs consumed by one iteration: the cap.read() result, the
wall clock, the key poll, and the remote service behaviour for this tick. -/
structure TickInput where
  readResult : Option Frame
  now : ℚ
  key : Key
  facesOracle : FacesOracle
  labelsOracle : LabelsOracle

/-- Everything one iteration produces: the successor state, how the
iteration ended, whether the analysis block ran, the detection lists it
obtained, and the frame handed to cv2.imshow (none when the iteration broke
or raised before displaying). -/
structure StepOut where
  state : LoopState
  kind : StepKind
  analyzed : Bool
  faces : List FaceDetail
  labels : List LabelDetail
  displayed : Option Frame

/-- The if / elif chain of lines 162-167: spacebar forces analysis;
otherwise frame_count mod cadence is evaluated (raising on cadence zero);
then q breaks; anything else passes through. -/
def decide_analysis (key : Key) (frame_count : ℕ) (analyze_every_n_frames : ℤ) :
    Decision :=
  if key = Key.space then Decision.analyze
  else
    match pymod (frame_count : ℤ) analyze_every_n_frames with
    | Option.none => Decision.divError
    | Option.some r =>
        if r = 0 then Decision.analyze
        else if key = Key.q then Decision.quit
        else Decision.passThrough

/-- Lines 169-194 for a tick that neither broke nor raised in the decision
chain: when the trigger fired and the rate limit (strictly more than 2
seconds since last_analysis_time) passes, encode, run both detections, draw
the face boxes and advance last_analysis_time; otherwise pass the raw frame
through.  Captions are added and the frame displayed in both cases. -/
def analyzeOrPass (s : LoopState) (now : ℚ) (fo : FacesOracle) (lo : LabelsOracle)
    (frame : Frame) (analyze_frame : Bool) : StepOut :=
  if analyze_frame = true ∧ 2 < now - s.last_analysis_time then
    match encode_image frame with
    | Option.none =>
        { state := { frame_count := s.frame_count + 1,
                     last_analysis_time := s.last_analysis_time },
          kind := StepKind.raised PyError.encodingError, analyzed := true,
          faces := [], labels := [], displayed := Option.none }
    | Option.some image_bytes =>
        { state := { frame_count := s.frame_count + 1, last_analysis_time := now },
          kind := StepKind.continued, analyzed := true,
          faces := detect_faces fo image_bytes,
          labels := detect_labels lo image_bytes,
          displayed := Option.some (addCaptions (s.frame_count + 1)
            (draw_face_boxes frame (detect_faces fo image_bytes))) }
  else
    { state := { frame_count := s.frame_count + 1,
                 last_analysis_time := s.last_analysis_time },
      kind := StepKind.continued, analyzed := false,
      faces := [], labels := [],
      displayed := Option.some (addCaptions (s.frame_count + 1) frame) }

/-- One iteration of the while loop on a successfully read frame:
increment frame_count, run the decision chain, then the analysis block. -/
def stepBody (analyze_every_n_frames : ℤ) (s : LoopState) (now : ℚ) (key : Key)
    (fo : FacesOracle) (lo : LabelsOracle) (frame : Frame) : StepOut :=
  match decide_analysis key (s.frame_count + 1) analyze_every_n_frames with
  | Decision.divError =>
      { state := { frame_count := s.frame_count + 1,
                   last_analysis_time := s.last_analysis_time },
        kind := StepKind.raised PyError.zeroDivision, analyzed := false,
        faces := [], labels := [], displayed := Option.none }
  | Decision.quit =>
      { state := { frame_count := s.frame_count + 1,
                   last_analysis_time := s.last_analysis_time },
        kind := StepKind.brokeQuit, analyzed := false,
        faces := [], labels := [], displayed := Option.none }
  | Decision.analyze => analyzeOrPass s now fo lo frame true
  | Decision.passThrough => analyzeOrPass s now fo lo frame false

/-- One full iteration of the while loop (lines 149-194): a failed
cap.read() breaks before touching the state; otherwise run the body. -/
def step (analyze_every_n_frames : ℤ) (s : LoopState) (inp : TickInput) : StepOut :=
  match inp.readResult with
  | Option.none =>
      { state := s, kind := StepKind.brokeReadFailure, analyzed := false,
        faces := [], labels := [], displayed := Option.none }
  | Option.some frame =>
      stepBody analyze_every_n_frames s inp.now inp.key inp.facesOracle
        inp.labelsOracle frame

/-- Why the session left the while loop. -/
inductive ExitReason where
  | endOfStream
  | quit
  | interrupted
  | error (e : PyError)
  deriving DecidableEq

/-- Run the while loop over a finite trace of tick inputs.  A trace that is
exhausted without a break models the operator interrupting the session at
that point (KeyboardInterrupt), since the real loop only ever ends by break,
exception or interrupt. -/
def runLoop (analyze_every_n_frames : ℤ) :
    LoopState → List TickInput → LoopState × ExitReason
  | s, [] => (s, ExitReason.interrupted)
  | s, inp :: rest =>
    match (step analyze_every_n_frames s inp).kind with
    | StepKind.continued =>
        runLoop analyze_every_n_frames (step analyze_every_n_frames s inp).state rest
    | StepKind.brokeReadFailure =>
        ((step analyze_every_n_frames s inp).state, ExitReason.endOfStream)
    | StepKind.brokeQuit =>
        ((step analyze_every_n_frames s inp).state, ExitReason.quit)
    | StepKind.raised e =>
        ((step analyze_every_n_frames s inp).state, ExitReason.error e)

/-- What the except / finally of lines 196-203 print on the way out: the
interrupt handler message when a KeyboardInterrupt ended the session, then
the unconditional cleanup message.  No other text is printed at teardown. -/
def teardownMessages (reason : ExitReason) : List String :=
  match reason with
  | ExitReason.interrupted => ["🛑 Analysis stopped by user", "✓ Resources cleaned up"]
  | _ => ["✓ Resources cleaned up"]

/-- Observable outcome of a whole run_video_analysis call. -/
structure RunResult where
  started : Bool
  finalState : LoopState
  exit : Option ExitReason
  capReleased : Bool
  windowsDestroyed : Bool
  teardownMsgs : List String
  reraised : Option PyError

/-- run_video_analysis (lines 129-203): if the capture device fails to open,
return immediately with no teardown; otherwise run the loop from frame_count
zero and the start-of-session clock, then unconditionally (finally) release
the capture handle, destroy the display windows and print the fixed cleanup
message; an uncaught exception is re-raised to the caller after teardown. -/
def run_video_analysis (capOpened : Bool) (startTime : ℚ)
    (analyze_every_n_frames : ℤ) (inputs : List TickInput) : RunResult :=
  if capOpened then
    match runLoop analyze_every_n_frames
        { frame_count := 0, last_analysis_time := startTime } inputs with
    | (finalS, reason) =>
      { started := true, finalState := finalS, exit := Option.some reason,
        capReleased := true, windowsDestroyed := true,
        teardownMsgs := teardownMessages reason,
        reraised := match reason with
          | ExitReason.error e => Option.some e
          | _ => Option.none }
  else
    { started := false,
      finalState := { frame_count := 0, last_analysis_time := startTime },
      exit := Option.none, capReleased := false, windowsDestroyed := false,
      teardownMsgs := [], reraised := Option.none }

/-- Whether the character list pat occurs contiguously inside s. -/
def listContains (pat : List Char) : List Char → Bool
  | [] => pat.isEmpty
  | c :: t => pat.isPrefixOf (c :: t) || listContains pat t

/-- Whether any of the printed messages mentions the decimal representation
of the given frame count. -/
def reportsFrameCount (msgs : List String) (count : ℕ) : Bool :=
  msgs.any (fun m => listContains (toString count).data m.data)

/-- The spec predicate a label list must satisfy when the remote oracle
honors the request caps: at most maxLabels entries, each with confidence at
least minConfidence. -/
def labelsRespectRequest (labels : List LabelDetail) (maxLabels : ℕ)
    (minConfidence : ℚ) : Prop :=
  labels.length ≤ maxLabels ∧ ∀ l ∈ labels, minConfidence ≤ l.confidence

/-- An oracle honors its request parameters when every successful response
respects the caps of the request that produced it. -/
def oracleHonors (oracle : LabelsOracle) : Prop :=
  ∀ req res, oracle req = Except.ok res →
    labelsRespectRequest res req.maxLabels req.minConfidence

/-- A 640 by 480 frame with no marks that encodes to a two byte JPEG stub. -/
def sampleBytes : ImageBytes := [255, 216]

/-- Sample frame used by the concrete evaluations. -/
def sampleFrame : Frame :=
  { width := 640, height := 480, marks := [], jpegBytes := Option.some sampleBytes }

/-- Frame whose JPEG encoding fails. -/
def badFrame : Frame :=
  { width := 640, height := 480, marks := [], jpegBytes := Option.none }

/-- Face detection oracle that always succeeds with no faces. -/
def okFacesOracle : FacesOracle := fun _ => Except.ok []

/-- Label detection oracle that always succeeds with no labels. -/
def okLabelsOracle : LabelsOracle := fun _ => Except.ok []

/-- Face detection oracle that always fails. -/
def errFacesOracle : FacesOracle :=
  fun _ => Except.error (ClientError.clientError "network failure")

/-- Label detection oracle that always fails. -/
def errLabelsOracle : LabelsOracle :=
  fun _ => Except.error (ClientError.clientError "throttled")

/-- Tick with the spacebar pressed at wall clock 2. -/
def tickSpace2 : TickInput :=
  { readResult := Option.some sampleFrame, now := 2, key := Key.space,
    facesOracle := okFacesOracle, labelsOracle := okLabelsOracle }

/-- Tick with no key pressed at wall clock 5. -/
def tickAuto5 : TickInput :=
  { readResult := Option.some sampleFrame, now := 5, key := Key.other,
    facesOracle := okFacesOracle, labelsOracle := okLabelsOracle }

/-- Tick with the q key pressed at wall clock 0. -/
def tickQuit0 : TickInput :=
  { readResult := Option.some sampleFrame, now := 0, key := Key.q,
    facesOracle := okFacesOracle, labelsOracle := okLabelsOracle }

/-- Tick with no key pressed at wall clock 10 on which both remote calls
fail. -/
def tickErr10 : TickInput :=
  { readResult := Option.some sampleFrame, now := 10, key := Key.other,
    facesOracle := errFacesOracle, labelsOracle := errLabelsOracle }

/-- Tick with the spacebar pressed at wall clock 10 whose frame cannot be
encoded. -/
def tickBad10 : TickInput :=
  { readResult := Option.some badFrame, now := 10, key := Key.space,
    facesOracle := okFacesOracle, labelsOracle := okLabelsOracle }

/-- Truncation of an exact integer value is that integer. -/
theorem pyInt_intCast (a : ℤ) : pyInt ((a : ℚ)) = a := by
  unfold pyInt
  split <;> simp

/-- On a tick whose frame was read successfully, the step is the loop body. -/
theorem step_eq_body (n : ℤ) (s : LoopState) (inp : TickInput) (frame : Frame)
    (hread : inp.readResult = Option.some frame) :
    step n s inp =
      stepBody n s inp.now inp.key inp.facesOracle inp.labelsOracle frame := by
  unfold step
  rw [hread]

/-- With a nonzero cadence, the decision chain chooses analysis exactly when
the spacebar was pressed or the incremented frame counter is divisible by
the cadence. -/
theorem decide_analysis_eq_analyze (key : Key) (fc : ℕ) (n : ℤ) (hn : n ≠ 0) :
    decide_analysis key fc n = Decision.analyze ↔
      (key = Key.space ∨ Int.fmod (fc : ℤ) n = 0) := by
  by_cases hk : key = Key.space
  · simp [decide_analysis, hk]
  · by_cases hr : Int.fmod (fc : ℤ) n = 0
    · simp +decide [decide_analysis, pymod, hk, hn, hr]
    · by_cases hq : key = Key.q
      · simp +decide [decide_analysis, pymod, hk, hn, hr, hq]
      · simp +decide [decide_analysis, pymod, hk, hn, hr, hq]

/-- With a nonzero cadence, the decision chain quits exactly when q was
pressed and the cadence does not fire. -/
theorem decide_analysis_eq_quit (key : Key) (fc : ℕ) (n : ℤ) (hn : n ≠ 0) :
    decide_analysis key fc n = Decision.quit ↔
      (key = Key.q ∧ ¬ Int.fmod (fc : ℤ) n = 0) := by
  by_cases hk : key = Key.space
  · simp +decide [decide_analysis, hk]
  · by_cases hr : Int.fmod (fc : ℤ) n = 0
    · simp +decide [decide_analysis, pymod, hk, hn, hr]
    · by_cases hq : key = Key.q
      · simp +decide [decide_analysis, pymod, hk, hn, hr, hq]
      · simp +decide [decide_analysis, pymod, hk, hn, hr, hq]

/-- With a nonzero cadence the decision chain never raises. -/
theorem decide_analysis_ne_divError (key : Key) (fc : ℕ) (n : ℤ) (hn : n ≠ 0) :
    decide_analysis key fc n ≠ Decision.divError := by
  by_cases hk : key = Key.space
  · simp +decide [decide_analysis, hk]
  · by_cases hr : Int.fmod (fc : ℤ) n = 0
    · simp +decide [decide_analysis, pymod, hk, hn, hr]
    · by_cases hq : key = Key.q
      · simp +decide [decide_analysis, pymod, hk, hn, hr, hq]
      · simp +decide [decide_analysis, pymod, hk, hn, hr, hq]

/-- The analysis block never breaks out of the loop. -/
theorem analyzeOrPass_kind_ne_quit (s : LoopState) (now : ℚ) (fo : FacesOracle)
    (lo : LabelsOracle) (frame : Frame) (b : Bool) :
    (analyzeOrPass s now fo lo frame b).kind ≠ StepKind.brokeQuit := by
  unfold analyzeOrPass
  split
  · cases h : encode_image frame <;> simp [h]
  · simp

/-- Drawing an empty face list leaves the frame unchanged (shared helper). -/
theorem draw_face_boxes_nil (frame : Frame) : draw_face_boxes frame [] = frame := rfl

/-- Claim C8: calling the Overlay Renderer (draw_face_boxes) with an empty
DetectionResult returns the frame unchanged — no rectangle or text marks are
added — and does not raise an error. -/
theorem draw_face_boxes_empty (frame : Frame) : draw_face_boxes frame [] = frame := rfl

/-- Claim C8 witness: the effect on a concrete 640 by 480 frame. -/
theorem draw_face_boxes_empty_witness : draw_face_boxes sampleFrame [] = sampleFrame :=
  draw_face_boxes_empty sampleFrame

/-- Claim C9: whenever the four products of normalized coordinates with the
frame dimensions are exact integers a, b, c, d, the Overlay Renderer
denormalizes the box to exactly those pixel values and draws the face
rectangle with corners (a, b) and (a + c, b + d); in particular a box with
left 0.1, top 0.2, width 0.3, height 0.4 on a 640 by 480 frame yields the
pixel rectangle from (64, 96) to (256, 288). -/
theorem denormalize_rect (frame : Frame) (face : FaceDetail) (a b c d : ℤ)
    (hl : face.boundingBox.left * (frame.width : ℚ) = (a : ℚ))
    (ht : face.boundingBox.top * (frame.height : ℚ) = (b : ℚ))
    (hw : face.boundingBox.width * (frame.width : ℚ) = (c : ℚ))
    (hh : face.boundingBox.height * (frame.height : ℚ) = (d : ℚ)) :
    denormalize face.boundingBox frame.width frame.height = (a, b, c, d) ∧
    Mark.rect a b (a + c) (b + d) 0 255 0 2 ∈ (draw_face_boxes frame [face]).marks := by
  have hd : denormalize face.boundingBox frame.width frame.height = (a, b, c, d) := by
    unfold denormalize
    rw [hl, ht, hw, hh]
    simp [pyInt_intCast]
  refine ⟨hd, ?_⟩
  unfold draw_face_boxes
  simp only [List.foldl]
  unfold drawOneFace
  rw [hd]
  cases h : face.ageRange <;> simp [h]

/-- A face whose normalized box is left 0.1, top 0.2, width 0.3, height 0.4. -/
def face910 : FaceDetail :=
  { boundingBox := { left := 1/10, top := 2/10, width := 3/10, height := 4/10 },
    confidence := Option.some 99, ageRange := Option.none }

/-- Claim C9 witness: the concrete round trip of the spec on a 640 by 480
frame. -/
theorem denormalize_rect_witness :
    denormalize face910.boundingBox sampleFrame.width sampleFrame.height
      = (64, 96, 192, 192) ∧
    Mark.rect 64 96 256 288 0 255 0 2 ∈ (draw_face_boxes sampleFrame [face910]).marks :=
  denormalize_rect sampleFrame face910 64 96 192 192
    (by norm_num [face910, sampleFrame]) (by norm_num [face910, sampleFrame])
    (by norm_num [face910, sampleFrame]) (by norm_num [face910, sampleFrame])

/-- Claim C10: the label-detection request is built with MaxLabels 10 and
MinConfidence 70, so as long as the remote oracle honors its request
parameters, the label list detect_labels hands back always has at most 10
entries, each with confidence at least 70 (a failed call yields the empty
list, which satisfies the same bounds). -/
theorem detect_labels_respects_request (oracle : LabelsOracle)
    (image_bytes : ImageBytes) (honors : oracleHonors oracle) :
    labelsRespectRequest (detect_labels oracle image_bytes) 10 70 := by
  unfold detect_labels
  cases h : oracle { image := image_bytes, maxLabels := 10, minConfidence := 70 } with
  | ok labels => exact honors _ _ h
  | error e =>
      refine ⟨by simp, ?_⟩
      intro l hl
      simp at hl

/-- Claim C10 witness: the bound at a concrete honoring oracle and input. -/
theorem detect_labels_respects_request_witness :
    labelsRespectRequest (detect_labels okLabelsOracle sampleBytes) 10 70 :=
  detect_labels_respects_request okLabelsOracle sampleBytes
    (fun req res h => by
      have hres : res = [] := by
        simpa [okLabelsOracle] using h.symm
      subst hres
      exact ⟨by simp, by intro l hl; simp at hl⟩)

/-- Claim C1 (amended): on a tick with a read frame, positive cadence and an
encodable frame, a remote analysis is performed iff (manual trigger or
frame_index mod cadence_n equals 0) and now minus last_analysis_timestamp is
STRICTLY greater than min_interval_seconds = 2; when the trigger fires but
the rate limit suppresses it, the tick is a silent pass-through: the loop
continues, only frame_count advances, and the raw frame (captions added) is
displayed. -/
theorem step_analysis_iff (n : ℤ) (s : LoopState) (inp : TickInput) (frame : Frame)
    (bytes : ImageBytes)
    (hread : inp.readResult = Option.some frame)
    (hn : 0 < n)
    (henc : frame.jpegBytes = Option.some bytes) :
    ((step n s inp).analyzed = true ↔
      ((inp.key = Key.space ∨ ((s.frame_count : ℤ) + 1) % n = 0) ∧
        2 < inp.now - s.last_analysis_time)) ∧
    ((inp.key = Key.space ∨ ((s.frame_count : ℤ) + 1) % n = 0) →
      ¬ 2 < inp.now - s.last_analysis_time →
      (step n s inp).kind = StepKind.continued ∧
      (step n s inp).state =
        { frame_count := s.frame_count + 1,
          last_analysis_time := s.last_analysis_time } ∧
      (step n s inp).displayed = Option.some (addCaptions (s.frame_count + 1) frame)) := by
  have hn0 : n ≠ 0 := ne_of_gt hn
  have hmod : Int.fmod ((s.frame_count + 1 : ℕ) : ℤ) n = 0 ↔
      ((s.frame_count : ℤ) + 1) % n = 0 := by
    rw [Int.fmod_eq_emod _ (le_of_lt hn)]
    push_cast
    exact Iff.rfl
  rw [step_eq_body n s inp frame hread]
  constructor
  · cases hda : decide_analysis inp.key (s.frame_count + 1) n with
    | analyze =>
        have hgate : inp.key = Key.space ∨ ((s.frame_count : ℤ) + 1) % n = 0 := by
          rcases (decide_analysis_eq_analyze inp.key (s.frame_count + 1) n hn0).mp hda
            with h | h
          · exact Or.inl h
          · exact Or.inr (hmod.mp h)
        simp only [stepBody, hda]
        unfold analyzeOrPass
        by_cases hlim : 2 < inp.now - s.last_analysis_time
        · rw [if_pos ⟨rfl, hlim⟩]
          simp only [encode_image, henc]
          exact iff_of_true (by trivial) ⟨hgate, hlim⟩
        · rw [if_neg (by intro h; exact hlim h.2)]
          exact iff_of_false (by simp) (fun h => hlim h.2)
    | passThrough =>
        have hgate : ¬ (inp.key = Key.space ∨ ((s.frame_count : ℤ) + 1) % n = 0) := by
          intro hor
          have hana : decide_analysis inp.key (s.frame_count + 1) n = Decision.analyze :=
            (decide_analysis_eq_analyze _ _ _ hn0).mpr (by
              rcases hor with h | h
              · exact Or.inl h
              · exact Or.inr (hmod.mpr h))
          rw [hda] at hana
          exact Decision.noConfusion hana
        simp only [stepBody, hda]
        unfold analyzeOrPass
        rw [if_neg (fun h => Bool.false_ne_true h.1)]
        exact iff_of_false (by simp) (fun h => hgate h.1)
    | quit =>
        have hq := (decide_analysis_eq_quit _ _ _ hn0).mp hda
        have hgate : ¬ (inp.key = Key.space ∨ ((s.frame_count : ℤ) + 1) % n = 0) := by
          rintro (h | h)
          · rw [hq.1] at h
            exact Key.noConfusion h
          · exact hq.2 (hmod.mpr h)
        simp only [stepBody, hda]
        exact iff_of_false (by simp) (fun h => hgate h.1)
    | divError =>
        exact absurd hda (decide_analysis_ne_divError _ _ _ hn0)
  · intro hgate hlim
    have hda : decide_analysis inp.key (s.frame_count + 1) n = Decision.analyze :=
      (decide_analysis_eq_analyze _ _ _ hn0).mpr (by
        rcases hgate with h | h
        · exact Or.inl h
        · exact Or.inr (hmod.mpr h))
    simp only [stepBody, hda]
    unfold analyzeOrPass
    rw [if_neg (by intro h; exact hlim h.2)]
    exact ⟨rfl, rfl, rfl⟩

/-- Claim C1 counterexample for the claim as stated: with the manual trigger
issued and now minus last_analysis_timestamp equal to exactly 2 seconds (so
at least min_interval_seconds), the code performs no analysis, because line
169 tests with strict inequality. -/
theorem step_interval_boundary_cx :
    (tickSpace2.key = Key.space ∧ tickSpace2.now - (0 : ℚ) ≥ 2) ∧
    (step 30 { frame_count := 0, last_analysis_time := 0 } tickSpace2).analyzed
      = false := by
  refine ⟨⟨rfl, by norm_num [tickSpace2]⟩, ?_⟩
  norm_num +decide [step, stepBody, decide_analysis, pymod, Int.fmod_eq_emod,
    analyzeOrPass, encode_image, tickSpace2, sampleFrame, okFacesOracle, okLabelsOracle]

/-- Claim C1 witness: a cadence-triggered analysis on frame 30 with cadence
30, 5 seconds after the previous analysis. -/
theorem step_analysis_iff_witness :
    (step 30 { frame_count := 29, last_analysis_time := 0 } tickAuto5).analyzed
      = true :=
  (step_analysis_iff 30 { frame_count := 29, last_analysis_time := 0 } tickAuto5
      sampleFrame sampleBytes rfl (by norm_num) rfl).1.mpr
    ⟨Or.inr (by norm_num), by norm_num [tickAuto5]⟩

/-- Claim C2 (amended): on a tick with a read frame and positive cadence on
which the q key is pressed, the loop breaks out (transitions to TERMINATED)
if and only if the periodic cadence does NOT fire on that tick; when
frame_index mod cadence_n equals 0, the elif chain of lines 162-167 never
reaches the quit branch, the tick is treated as an analysis tick and the
loop continues, discarding the quit keypress. -/
theorem step_quit_iff (n : ℤ) (s : LoopState) (inp : TickInput) (frame : Frame)
    (hread : inp.readResult = Option.some frame)
    (hq : inp.key = Key.q) (hn : 0 < n) :
    ((step n s inp).kind = StepKind.brokeQuit ↔
      ¬ ((s.frame_count : ℤ) + 1) % n = 0) := by
  have hn0 : n ≠ 0 := ne_of_gt hn
  have hmod : Int.fmod ((s.frame_count + 1 : ℕ) : ℤ) n = 0 ↔
      ((s.frame_count : ℤ) + 1) % n = 0 := by
    rw [Int.fmod_eq_emod _ (le_of_lt hn)]
    push_cast
    exact Iff.rfl
  rw [step_eq_body n s inp frame hread]
  by_cases hr : Int.fmod ((s.frame_count + 1 : ℕ) : ℤ) n = 0
  · have hda : decide_analysis inp.key (s.frame_count + 1) n = Decision.analyze :=
      (decide_analysis_eq_analyze _ _ _ hn0).mpr (Or.inr hr)
    simp only [stepBody, hda]
    exact iff_of_false
      (analyzeOrPass_kind_ne_quit s inp.now inp.facesOracle inp.labelsOracle frame true)
      (fun h => h (hmod.mp hr))
  · have hda : decide_analysis inp.key (s.frame_count + 1) n = Decision.quit :=
      (decide_analysis_eq_quit _ _ _ hn0).mpr ⟨hq, hr⟩
    simp only [stepBody, hda]
    exact iff_of_true (by trivial) (fun h => hr (hmod.mpr h))

/-- Claim C2 counterexample for the claim as stated: q pressed on frame 30
with cadence 30 — the quit signal is swallowed and the loop continues
instead of transitioning to TERMINATED. -/
theorem step_quit_cadence_cx :
    tickQuit0.key = Key.q ∧ ((29 : ℤ) + 1) % 30 = 0 ∧
    (step 30 { frame_count := 29, last_analysis_time := 0 } tickQuit0).kind
      = StepKind.continued := by
  refine ⟨rfl, by norm_num, ?_⟩
  norm_num +decide [step, stepBody, decide_analysis, pymod, Int.fmod_eq_emod,
    analyzeOrPass, encode_image, tickQuit0, sampleFrame, okFacesOracle, okLabelsOracle]

/-- Claim C2 witness: q pressed on frame 1 with cadence 30 does break the
loop. -/
theorem step_quit_iff_witness :
    (step 30 { frame_count := 0, last_analysis_time := 0 } tickQuit0).kind
      = StepKind.brokeQuit :=
  (step_quit_iff 30 { frame_count := 0, last_analysis_time := 0 } tickQuit0
      sampleFrame rfl rfl (by norm_num)).mpr (by norm_num)

/-- Claim C3: with analyze_every_n_frames = 0 and no key pressed, line 164
evaluates frame_count % 0 and raises ZeroDivisionError — the code does NOT
silently disable periodic triggering as the claim requires; the manual
trigger path (spacebar) does still work at cadence 0 because the elif chain
short-circuits before the modulo. -/
theorem step_cadence_zero_raises :
    (step 0 { frame_count := 0, last_analysis_time := 0 } tickAuto5).kind
      = StepKind.raised PyError.zeroDivision ∧
    (step 0 { frame_count := 0, last_analysis_time := 0 }
        { tickAuto5 with key := Key.space }).analyzed = true := by
  constructor
  · norm_num +decide [step, stepBody, decide_analysis, pymod, analyzeOrPass,
      tickAuto5, sampleFrame]
  · norm_num +decide [step, stepBody, decide_analysis, pymod, analyzeOrPass,
      encode_image, tickAuto5, sampleFrame, detect_faces, detect_labels,
      okFacesOracle, okLabelsOracle]

/-- Claim C4 (amended): last_analysis_timestamp is advanced on every tick on
which the analysis block runs (trigger fired, rate limit passed, encoding
succeeded) — regardless of whether the Detection Client calls succeeded,
because their failures are swallowed inside detect_faces / detect_labels
before the line-185 update; on a tick with no analysis it is unchanged. -/
theorem step_last_time (n : ℤ) (s : LoopState) (inp : TickInput) (frame : Frame)
    (bytes : ImageBytes)
    (hread : inp.readResult = Option.some frame)
    (henc : frame.jpegBytes = Option.some bytes) :
    ((step n s inp).analyzed = true →
      (step n s inp).state.last_analysis_time = inp.now) ∧
    ((step n s inp).analyzed = false →
      (step n s inp).state.last_analysis_time = s.last_analysis_time) := by
  rw [step_eq_body n s inp frame hread]
  cases hda : decide_analysis inp.key (s.frame_count + 1) n with
  | analyze =>
      simp only [stepBody, hda]
      unfold analyzeOrPass
      by_cases hlim : 2 < inp.now - s.last_analysis_time
      · rw [if_pos ⟨rfl, hlim⟩]
        simp only [encode_image, henc]
        exact ⟨fun _ => by trivial, fun h => absurd h (by simp)⟩
      · rw [if_neg (by intro h; exact hlim h.2)]
        exact ⟨fun h => absurd h (by simp), fun _ => by trivial⟩
  | passThrough =>
      simp only [stepBody, hda]
      unfold analyzeOrPass
      rw [if_neg (fun h => Bool.false_ne_true h.1)]
      exact ⟨fun h => absurd h (by simp), fun _ => by trivial⟩
  | quit =>
      simp only [stepBody, hda]
      exact ⟨fun h => absurd h (by simp), fun _ => by trivial⟩
  | divError =>
      simp only [stepBody, hda]
      exact ⟨fun h => absurd h (by simp), fun _ => by trivial⟩

/-- Claim C4 counterexample for the claim as stated: an analysis tick on
which both remote calls fail (the faces call answers the concrete request
with a ClientError) still advances last_analysis_time from 0 to 10. -/
theorem step_failed_call_advances_cx :
    tickErr10.facesOracle { image := sampleBytes, attributes := ["ALL"] }
      = Except.error (ClientError.clientError "network failure") ∧
    (step 1 { frame_count := 0, last_analysis_time := 0 } tickErr10).analyzed = true ∧
    (step 1 { frame_count := 0, last_analysis_time := 0 } tickErr10).faces = [] ∧
    (step 1 { frame_count := 0, last_analysis_time := 0 }
        tickErr10).state.last_analysis_time = 10 := by
  refine ⟨rfl, ?_, ?_, ?_⟩ <;>
    norm_num +decide [step, stepBody, decide_analysis, pymod, Int.fmod_eq_emod,
      analyzeOrPass, encode_image, tickErr10, sampleFrame, detect_faces,
      detect_labels, errFacesOracle, errLabelsOracle]

/-- Claim C4 witness: the amended rule at a concrete analysis tick (updated
to now) and via the concrete pass-through direction sharing the theorem. -/
theorem step_last_time_witness :
    (step 30 { frame_count := 29, last_analysis_time := 0 }
        tickAuto5).state.last_analysis_time = tickAuto5.now :=
  (step_last_time 30 { frame_count := 29, last_analysis_time := 0 } tickAuto5
      sampleFrame sampleBytes rfl rfl).1
    (by norm_num +decide [step, stepBody, decide_analysis, pymod, Int.fmod_eq_emod,
      analyzeOrPass, encode_image, tickAuto5, sampleFrame, detect_faces,
      detect_labels, okFacesOracle, okLabelsOracle])

/-- Unfolding lemma: a continued tick makes the loop proceed to the rest of
the trace from the successor state. -/
theorem runLoop_cons_continued (n : ℤ) (s : LoopState) (inp : TickInput)
    (rest : List TickInput) (h : (step n s inp).kind = StepKind.continued) :
    runLoop n s (inp :: rest) = runLoop n (step n s inp).state rest := by
  conv_lhs => unfold runLoop
  rw [h]

/-- Unfolding lemma: a tick that raises ends the loop immediately with the
corresponding error exit. -/
theorem runLoop_cons_raised (n : ℤ) (s : LoopState) (inp : TickInput)
    (rest : List TickInput) (e : PyError)
    (h : (step n s inp).kind = StepKind.raised e) :
    runLoop n s (inp :: rest) = ((step n s inp).state, ExitReason.error e) := by
  conv_lhs => unfold runLoop
  rw [h]

/-- Claim C5: on a tick on which the analysis block runs with an encodable
frame, a Detection Client failure (every request answered with ClientError)
is caught at the boundary and converted into empty face and label lists;
the tick still displays the captioned frame (no boxes, since no detections)
and the loop continues to the next iteration — it never terminates because
a single analysis call failed. -/
theorem step_client_failure_recovered (n : ℤ) (s : LoopState) (inp : TickInput)
    (frame : Frame) (bytes : ImageBytes) (e1 e2 : ClientError)
    (rest : List TickInput)
    (hread : inp.readResult = Option.some frame)
    (henc : frame.jpegBytes = Option.some bytes)
    (hf : ∀ req, inp.facesOracle req = Except.error e1)
    (hl : ∀ req, inp.labelsOracle req = Except.error e2)
    (hA : (step n s inp).analyzed = true) :
    (step n s inp).kind = StepKind.continued ∧
    (step n s inp).faces = [] ∧
    (step n s inp).labels = [] ∧
    (step n s inp).displayed = Option.some (addCaptions (s.frame_count + 1) frame) ∧
    runLoop n s (inp :: rest) = runLoop n (step n s inp).state rest := by
  rw [step_eq_body n s inp frame hread] at hA
  have hs := step_eq_body n s inp frame hread
  have hfaces : detect_faces inp.facesOracle bytes = [] := by
    unfold detect_faces
    rw [hf]
  have hlabels : detect_labels inp.labelsOracle bytes = [] := by
    unfold detect_labels
    rw [hl]
  have hkey :
      ∀ r, stepBody n s inp.now inp.key inp.facesOracle inp.labelsOracle frame = r →
        r.analyzed = true → r.kind = StepKind.continued ∧ r.faces = [] ∧
        r.labels = [] ∧
        r.displayed = Option.some (addCaptions (s.frame_count + 1) frame) := by
    intro r hr hra
    subst hr
    cases hda : decide_analysis inp.key (s.frame_count + 1) n with
    | analyze =>
        simp only [stepBody, hda] at hra ⊢
        unfold analyzeOrPass at hra ⊢
        by_cases hlim : 2 < inp.now - s.last_analysis_time
        · rw [if_pos ⟨rfl, hlim⟩] at hra ⊢
          simp only [encode_image, henc] at hra ⊢
          rw [hfaces, hlabels, draw_face_boxes_nil]
          exact ⟨by trivial, by trivial, by trivial, by trivial⟩
        · rw [if_neg (by intro h; exact hlim h.2)] at hra
          exact absurd hra (by simp)
    | passThrough =>
        simp only [stepBody, hda] at hra
        unfold analyzeOrPass at hra
        rw [if_neg (fun h => Bool.false_ne_true h.1)] at hra
        exact absurd hra (by simp)
    | quit =>
        simp only [stepBody, hda] at hra
        exact absurd hra (by simp)
    | divError =>
        simp only [stepBody, hda] at hra
        exact absurd hra (by simp)
  have hmain := hkey _ rfl hA
  refine ⟨by rw [hs]; exact hmain.1, by rw [hs]; exact hmain.2.1,
    by rw [hs]; exact hmain.2.2.1, by rw [hs]; exact hmain.2.2.2, ?_⟩
  exact runLoop_cons_continued n s inp rest (by rw [hs]; exact hmain.1)

/-- Claim C5 witness: a concrete analysis tick whose two remote calls fail:
the tick continues, produces empty detections, displays the captioned raw
frame, and the loop goes on. -/
theorem step_client_failure_recovered_witness :
    (step 1 { frame_count := 0, last_analysis_time := 0 } tickErr10).kind
      = StepKind.continued ∧
    (step 1 { frame_count := 0, last_analysis_time := 0 } tickErr10).faces = [] ∧
    (step 1 { frame_count := 0, last_analysis_time := 0 } tickErr10).labels = [] ∧
    (step 1 { frame_count := 0, last_analysis_time := 0 } tickErr10).displayed
      = Option.some (addCaptions 1 sampleFrame) ∧
    runLoop 1 { frame_count := 0, last_analysis_time := 0 } [tickErr10]
      = runLoop 1 (step 1 { frame_count := 0, last_analysis_time := 0 }
          tickErr10).state [] :=
  step_client_failure_recovered 1 { frame_count := 0, last_analysis_time := 0 }
    tickErr10 sampleFrame sampleBytes
    (ClientError.clientError "network failure") (ClientError.clientError "throttled")
    [] rfl rfl (fun _ => rfl) (fun _ => rfl)
    (by norm_num +decide [step, stepBody, decide_analysis, pymod, Int.fmod_eq_emod,
      analyzeOrPass, encode_image, tickErr10, sampleFrame, detect_faces,
      detect_labels, errFacesOracle, errLabelsOracle])

/-- Claim C6 (amended): whenever the session started, teardown runs on every
exit path — the capture handle is released, the display windows are
destroyed, and only the fixed teardown messages are printed (the interrupt
notice when the session was interrupted, then the cleanup notice); the total
number of frames processed is NOT among them. -/
theorem run_teardown (startTime : ℚ) (n : ℤ) (inputs : List TickInput) :
    (run_video_analysis true startTime n inputs).capReleased = true ∧
    (run_video_analysis true startTime n inputs).windowsDestroyed = true ∧
    ((run_video_analysis true startTime n inputs).teardownMsgs
        = ["✓ Resources cleaned up"] ∨
      (run_video_analysis true startTime n inputs).teardownMsgs
        = ["🛑 Analysis stopped by user", "✓ Resources cleaned up"]) := by
  unfold run_video_analysis
  rcases h : runLoop n { frame_count := 0, last_analysis_time := startTime } inputs
    with ⟨finalS, reason⟩
  simp only [if_pos rfl, h]
  refine ⟨rfl, rfl, ?_⟩
  cases reason <;> simp [teardownMessages]

/-- Claim C6 counterexample for the claim as stated: a quit after one frame
runs teardown, but no teardown message mentions the total number of frames
processed (here 1) — the source prints only a fixed cleanup string. -/
theorem run_no_frame_count_report_cx :
    (run_video_analysis true 0 30 [tickQuit0]).capReleased = true ∧
    (run_video_analysis true 0 30 [tickQuit0]).finalState.frame_count = 1 ∧
    (run_video_analysis true 0 30 [tickQuit0]).teardownMsgs
      = ["✓ Resources cleaned up"] ∧
    reportsFrameCount (run_video_analysis true 0 30 [tickQuit0]).teardownMsgs
      (run_video_analysis true 0 30 [tickQuit0]).finalState.frame_count = false := by
  have hrun : run_video_analysis true 0 30 [tickQuit0] =
      { started := true, finalState := { frame_count := 1, last_analysis_time := 0 },
        exit := Option.some ExitReason.quit, capReleased := true,
        windowsDestroyed := true, teardownMsgs := ["✓ Resources cleaned up"],
        reraised := Option.none } := by
    norm_num +decide [run_video_analysis, runLoop, step, stepBody, decide_analysis,
      pymod, Int.fmod_eq_emod, analyzeOrPass, encode_image, tickQuit0, sampleFrame,
      teardownMessages]
  rw [hrun]
  refine ⟨rfl, rfl, rfl, ?_⟩
  decide

/-- Claim C6 witness: the amended teardown guarantee at a concrete
interrupted session (empty input trace). -/
theorem run_teardown_witness :
    (run_video_analysis true 0 30 []).capReleased = true ∧
    (run_video_analysis true 0 30 []).windowsDestroyed = true ∧
    ((run_video_analysis true 0 30 []).teardownMsgs = ["✓ Resources cleaned up"] ∨
      (run_video_analysis true 0 30 []).teardownMsgs
        = ["🛑 Analysis stopped by user", "✓ Resources cleaned up"]) :=
  run_teardown 0 30 []

/-- Claim C7 (amended): a failure to encode the frame for transport on a
tick whose analysis block runs is NOT recovered locally: the exception
propagates out of the loop, nothing is displayed on that tick (not even the
raw frame), no further ticks are processed, and the session ends with the
encoding error (teardown still runs, by the theorem for claim C6). -/
theorem step_encoding_failure (n : ℤ) (s : LoopState) (inp : TickInput)
    (frame : Frame) (rest : List TickInput)
    (hread : inp.readResult = Option.some frame)
    (henc : frame.jpegBytes = Option.none)
    (hA : (step n s inp).analyzed = true) :
    (step n s inp).kind = StepKind.raised PyError.encodingError ∧
    (step n s inp).displayed = Option.none ∧
    runLoop n s (inp :: rest) =
      ({ frame_count := s.frame_count + 1,
         last_analysis_time := s.last_analysis_time },
       ExitReason.error PyError.encodingError) := by
  rw [step_eq_body n s inp frame hread] at hA
  have hs := step_eq_body n s inp frame hread
  have hkey :
      ∀ r, stepBody n s inp.now inp.key inp.facesOracle inp.labelsOracle frame = r →
        r.analyzed = true → r.kind = StepKind.raised PyError.encodingError ∧
        r.displayed = Option.none ∧
        r.state = LoopState.mk (s.frame_count + 1) s.last_analysis_time := by
    intro r hr hra
    subst hr
    cases hda : decide_analysis inp.key (s.frame_count + 1) n with
    | analyze =>
        simp only [stepBody, hda] at hra ⊢
        unfold analyzeOrPass at hra ⊢
        by_cases hlim : 2 < inp.now - s.last_analysis_time
        · rw [if_pos ⟨rfl, hlim⟩] at hra ⊢
          simp only [encode_image, henc] at hra ⊢
          exact ⟨by trivial, by trivial, by trivial⟩
        · rw [if_neg (by intro h; exact hlim h.2)] at hra
          exact absurd hra (by simp)
    | passThrough =>
        simp only [stepBody, hda] at hra
        unfold analyzeOrPass at hra
        rw [if_neg (fun h => Bool.false_ne_true h.1)] at hra
        exact absurd hra (by simp)
    | quit =>
        simp only [stepBody, hda] at hra
        exact absurd hra (by simp)
    | divError =>
        simp only [stepBody, hda] at hra
        exact absurd hra (by simp)
  have hmain := hkey _ rfl hA
  refine ⟨by rw [hs]; exact hmain.1, by rw [hs]; exact hmain.2.1, ?_⟩
  rw [runLoop_cons_raised n s inp rest PyError.encodingError
    (by rw [hs]; exact hmain.1)]
  rw [hs, hmain.2.2]

/-- Claim C7 counterexample for the claim as stated: a manual-trigger tick
whose frame cannot be encoded raises instead of skipping the tick — the raw
frame is not displayed and the following tick is never processed (the run
ends after one frame with the encoding error). -/
theorem step_encoding_failure_cx :
    badFrame.jpegBytes = Option.none ∧
    (step 1 { frame_count := 0, last_analysis_time := 0 } tickBad10).kind
      = StepKind.raised PyError.encodingError ∧
    (step 1 { frame_count := 0, last_analysis_time := 0 } tickBad10).displayed
      = Option.none ∧
    runLoop 1 { frame_count := 0, last_analysis_time := 0 } [tickBad10, tickAuto5]
      = ({ frame_count := 1, last_analysis_time := 0 },
         ExitReason.error PyError.encodingError) := by
  refine ⟨rfl, ?_, ?_, ?_⟩ <;>
    norm_num +decide [runLoop, step, stepBody, decide_analysis, pymod,
      Int.fmod_eq_emod, analyzeOrPass, encode_image, tickBad10, badFrame]

/-- Claim C7 witness: the amended behaviour at the concrete failing tick. -/
theorem step_encoding_failure_witness :
    (step 1 { frame_count := 0, last_analysis_time := 0 } tickBad10).kind
      = StepKind.raised PyError.encodingError ∧
    (step 1 { frame_count := 0, last_analysis_time := 0 } tickBad10).displayed
      = Option.none ∧
    runLoop 1 { frame_count := 0, last_analysis_time := 0 } [tickBad10]
      = ({ frame_count := 1, last_analysis_time := 0 },
         ExitReason.error PyError.encodingError) :=
  step_encoding_failure 1 { frame_count := 0, last_analysis_time := 0 } tickBad10
    badFrame [] rfl rfl
    (by norm_num +decide [step, stepBody, decide_analysis, pymod, Int.fmod_eq_emod,
      analyzeOrPass, encode_image, tickBad10, badFrame])

end VideoStream
